import Mathlib

/-!
Verification of the FASS medication lookup tool
(`skills/swedish-medications/scripts/fass_lookup.py`).

Python strings are modelled as Lean `String`s (sequences of Unicode code
points); the handful of Python string primitives the script uses
(`str.lower`, `str.strip`, `str.title`, the substring operator `in`,
`str.join`, `urllib.parse.quote`) are embedded explicitly below.
-/

/-- Python `str.lower` on a single character, covering the ASCII range and
the Swedish letters Å/Ä/Ö that occur in the program's data. -/
def pyLowerChar (c : Char) : Char :=
  if 'A' ≤ c ∧ c ≤ 'Z' then Char.ofNat (c.toNat + 32)
  else if c = 'Å' then 'å'
  else if c = 'Ä' then 'ä'
  else if c = 'Ö' then 'ö'
  else c

/-- Python `str.upper` on a single character (same character coverage). -/
def pyUpperChar (c : Char) : Char :=
  if 'a' ≤ c ∧ c ≤ 'z' then Char.ofNat (c.toNat - 32)
  else if c = 'å' then 'Å'
  else if c = 'ä' then 'Ä'
  else if c = 'ö' then 'Ö'
  else c

/-- Python `str.lower`. -/
def pyLower (s : String) : String := String.mk (s.data.map pyLowerChar)

/-- The characters stripped by Python `str.strip()` with no argument
(ASCII whitespace; the exotic Unicode spaces are irrelevant here). -/
def isPySpace (c : Char) : Bool :=
  c = ' ' || c = '\t' || c = '\n' || c = '\x0d' || c = '\x0b' || c = '\x0c'

/-- Strip leading and trailing whitespace from a character list. -/
def stripList (l : List Char) : List Char :=
  ((l.dropWhile isPySpace).reverse.dropWhile isPySpace).reverse

/-- Python `str.strip()`. -/
def pyStrip (s : String) : String := String.mk (stripList s.data)

/-- Does `hay` begin with `needle`? -/
def leadsWith : List Char → List Char → Bool
  | [], _ => true
  | _ :: _, [] => false
  | a :: as, b :: bs => a = b && leadsWith as bs

/-- Contiguous-substring test on character lists: Python's `needle in hay`
for strings (the empty needle occurs in every string). -/
def containsSub (needle : List Char) : List Char → Bool
  | [] => leadsWith needle []
  | c :: rest => leadsWith needle (c :: rest) || containsSub needle rest

/-- Python `sub in s` for strings. -/
def pyIn (sub s : String) : Bool := containsSub sub.data s.data

/-- The value stored under the `'otc'` key: the Python dict holds `True`,
`False` or a free-text string there. -/
inductive OtcStatus where
  | bool (b : Bool)
  | text (s : String)
deriving DecidableEq

/-- One value of the `get_common_medications()` dictionary. -/
structure MedInfo where
  brands : List String
  use : String
  dose : String
  otc : OtcStatus
  warnings : String
deriving DecidableEq

def paracetamol_info : MedInfo :=
  { brands := ["Alvedon", "Panodil", "Pamol"]
  , use := "Pain relief, fever reduction"
  , dose := "Adult: 500-1000mg every 4-6h, max 4g/day"
  , otc := .bool true
  , warnings := "Avoid with liver disease, limit alcohol" }

def ibuprofen_info : MedInfo :=
  { brands := ["Ipren", "Ibumetin", "Brufen"]
  , use := "Pain, inflammation, fever"
  , dose := "Adult: 200-400mg every 4-6h, max 1200mg/day (OTC)"
  , otc := .bool true
  , warnings := "Take with food, avoid if stomach ulcers or kidney issues" }

def omeprazol_info : MedInfo :=
  { brands := ["Losec", "Omeprazol"]
  , use := "Acid reflux, stomach ulcers, GERD"
  , dose := "Adult: 20mg once daily"
  , otc := .text "Low dose OTC, higher doses Rx"
  , warnings := "Long-term use may affect B12/magnesium" }

def sertralin_info : MedInfo :=
  { brands := ["Zoloft", "Sertralin"]
  , use := "Depression, anxiety, OCD, PTSD"
  , dose := "Adult: Start 50mg/day, may increase"
  , otc := .bool false
  , warnings := "Takes 2-4 weeks for effect, do not stop abruptly" }

def metformin_info : MedInfo :=
  { brands := ["Metformin", "Glucophage"]
  , use := "Type 2 diabetes"
  , dose := "Adult: Start 500mg 1-2x/day with food"
  , otc := .bool false
  , warnings := "Monitor kidney function, stop before contrast imaging" }

def atorvastatin_info : MedInfo :=
  { brands := ["Lipitor", "Atorvastatin"]
  , use := "High cholesterol, cardiovascular prevention"
  , dose := "Adult: 10-80mg once daily"
  , otc := .bool false
  , warnings := "Report muscle pain, avoid grapefruit" }

def loratadin_info : MedInfo :=
  { brands := ["Clarityn", "Loratadin"]
  , use := "Allergies, hay fever, hives"
  , dose := "Adult: 10mg once daily"
  , otc := .bool true
  , warnings := "Non-drowsy antihistamine" }

def cetirizin_info : MedInfo :=
  { brands := ["Zyrtec", "Cetirizin"]
  , use := "Allergies, hay fever, hives"
  , dose := "Adult: 10mg once daily"
  , otc := .bool true
  , warnings := "May cause slight drowsiness" }

/-- `get_common_medications()`: the dictionary in its Python (3.7+)
insertion order, modelled as an association list. -/
def get_common_medications : List (String × MedInfo) :=
  [ ("paracetamol", paracetamol_info)
  , ("ibuprofen", ibuprofen_info)
  , ("omeprazol", omeprazol_info)
  , ("sertralin", sertralin_info)
  , ("metformin", metformin_info)
  , ("atorvastatin", atorvastatin_info)
  , ("loratadin", loratadin_info)
  , ("cetirizin", cetirizin_info) ]

/-- The `for med_name, info in common_meds.items()` loop of
`lookup_medication`: the first entry whose canonical name equals the
normalized query or that owns a brand lower-casing to it wins, else the
first entry whose canonical name contains the query as a substring;
`break` on the first hit. -/
def findMed (ql : String) : List (String × MedInfo) → Option (String × MedInfo)
  | [] => none
  | (name, info) :: rest =>
    if decide (ql = name) || (info.brands.map pyLower).contains ql then some (name, info)
    else if pyIn ql name then some (name, info)
    else findMed ql rest

/-- The matcher: `query.lower().strip()` followed by the directory scan. -/
def matchQuery (query : String) : Option (String × MedInfo) :=
  findMed (pyStrip (pyLower query)) get_common_medications

/-! ## The reference-URL builder (`search_fass_web`) -/

/-- UTF-8 encoding of one code point, as a list of byte values. -/
def utf8Bytes (c : Char) : List Nat :=
  if c.toNat < 0x80 then [c.toNat]
  else if c.toNat < 0x800 then
    [0xC0 + c.toNat / 64, 0x80 + c.toNat % 64]
  else if c.toNat < 0x10000 then
    [0xE0 + c.toNat / 4096, 0x80 + c.toNat / 64 % 64, 0x80 + c.toNat % 64]
  else
    [0xF0 + c.toNat / 0x40000, 0x80 + c.toNat / 4096 % 64,
      0x80 + c.toNat / 64 % 64, 0x80 + c.toNat % 64]

/-- UTF-8 encoding of a string, as Python applies it inside
`urllib.parse.quote` before percent-encoding. -/
def utf8Encode (l : List Char) : List Nat := l.flatMap utf8Bytes

/-- The bytes `urllib.parse.quote` leaves unescaped: `_ALWAYS_SAFE`
(ASCII letters, digits, `_.-~`) plus the default `safe='/'`. -/
def quoteSafeByte (b : Nat) : Bool :=
  (48 ≤ b && b ≤ 57) || (65 ≤ b && b ≤ 90) || (97 ≤ b && b ≤ 122) ||
    b = 95 || b = 46 || b = 45 || b = 126 || b = 47

/-- Upper-case hexadecimal digit, as `quote` emits it. -/
def hexDigitChar (d : Nat) : Char :=
  match d with
  | 0 => '0' | 1 => '1' | 2 => '2' | 3 => '3' | 4 => '4'
  | 5 => '5' | 6 => '6' | 7 => '7' | 8 => '8' | 9 => '9'
  | 10 => 'A' | 11 => 'B' | 12 => 'C' | 13 => 'D' | 14 => 'E'
  | _ => 'F'

/-- Percent-encoding of one byte: safe bytes pass through as their ASCII
character, every other byte becomes `%XX`. -/
def quoteByte (b : Nat) : List Char :=
  if quoteSafeByte b then [Char.ofNat b]
  else ['%', hexDigitChar (b / 16), hexDigitChar (b % 16)]

/-- `urllib.parse.quote(query)` with its default arguments. -/
def pyQuote (s : String) : String :=
  String.mk ((utf8Encode s.data).flatMap quoteByte)

/-- Result dictionary of `search_fass_web`. -/
structure FassWebResult where
  query : String
  search_url : String
  note : String
deriving DecidableEq

/-- `search_fass_web(query)`: percent-encode the raw query and interpolate
it into the fixed fass.se search endpoint template. -/
def search_fass_web (query : String) : FassWebResult :=
  { query := query
  , search_url := "https://fass.se/search?query=" ++ pyQuote query
  , note := "Visit the URL above to see full results on FASS.se" }

/-! Percent-decoding (standard URL decoding as in `urllib.parse.unquote`):
`%XX` groups become bytes, other characters contribute their own bytes,
and the byte sequence is then UTF-8-decoded back into a string. -/

/-- Is `c` a hexadecimal digit? -/
def isHexDigit (c : Char) : Bool :=
  ('0' ≤ c && c ≤ '9') || ('A' ≤ c && c ≤ 'F') || ('a' ≤ c && c ≤ 'f')

/-- Numeric value of a hexadecimal digit. -/
def hexVal (c : Char) : Nat :=
  if '0' ≤ c && c ≤ '9' then c.toNat - 48
  else if 'A' ≤ c && c ≤ 'F' then c.toNat - 55
  else c.toNat - 87

/-- Percent-decoding to a byte sequence: `%XX` groups decode to the byte
`XX`; any other character stands for its own code point. -/
def unquoteBytes : List Char → List Nat
  | [] => []
  | c :: rest =>
    if c = '%' then
      match rest with
      | c1 :: c2 :: rest2 =>
        if isHexDigit c1 && isHexDigit c2 then
          (hexVal c1 * 16 + hexVal c2) :: unquoteBytes rest2
        else c.toNat :: unquoteBytes (c1 :: c2 :: rest2)
      | [c1] => [c.toNat, c1.toNat]
      | [] => [c.toNat]
    else c.toNat :: unquoteBytes rest

/-- One step of UTF-8 decoding: the first argument is `none` between
characters and `some (k, acc)` when `k` continuation bytes of a sequence
with accumulated high bits `acc` are still expected. -/
def utf8DecodeAux : Option (Nat × Nat) → List Nat → Option (List Nat)
  | none, [] => some []
  | some _, [] => none
  | none, b :: bs =>
    if b < 0x80 then (utf8DecodeAux none bs).map (fun ps => b :: ps)
    else if b < 0xC0 then none
    else if b < 0xE0 then utf8DecodeAux (some (1, b - 0xC0)) bs
    else if b < 0xF0 then utf8DecodeAux (some (2, b - 0xE0)) bs
    else if b < 0xF8 then utf8DecodeAux (some (3, b - 0xF0)) bs
    else none
  | some (k, acc), b :: bs =>
    if 0x80 ≤ b ∧ b < 0xC0 then
      if k = 1 then
        (utf8DecodeAux none bs).map (fun ps => (acc * 64 + (b - 0x80)) :: ps)
      else utf8DecodeAux (some (k - 1, acc * 64 + (b - 0x80))) bs
    else none

/-- UTF-8 decoding of a byte list into code points; `none` on any invalid
sequence. -/
def utf8DecodePoints (l : List Nat) : Option (List Nat) :=
  utf8DecodeAux none l

/-- Reconstruct a character from a code point, refusing invalid ones. -/
def charOfPoint (n : Nat) : Option Char :=
  if h : n.isValidChar then some (Char.ofNatAux n h) else none

/-- Reconstruct a string from a code-point list. -/
def charsOfPoints : List Nat → Option (List Char)
  | [] => some []
  | n :: rest => do
    let c ← charOfPoint n
    let cs ← charsOfPoints rest
    pure (c :: cs)

/-- Full percent-decoding of a URL component back to a string. -/
def pyUnquote (s : String) : Option String := do
  let pts ← utf8DecodePoints (unquoteBytes s.data)
  let cs ← charsOfPoints pts
  pure (String.mk cs)

/-! ## The formatter (`lookup_medication`) and the entry point -/

/-- Is `c` a cased letter for the purposes of `str.title`? (ASCII letters
and the Swedish letters occurring in the data.) -/
def isCasedChar (c : Char) : Bool :=
  ('a' ≤ c && c ≤ 'z') || ('A' ≤ c && c ≤ 'Z') ||
    c = 'å' || c = 'ä' || c = 'ö' || c = 'Å' || c = 'Ä' || c = 'Ö'

/-- Python `str.title`: upper-case a cased letter that follows a non-cased
character, lower-case every other cased letter. The flag records whether
the previous character was cased. -/
def titleAux : Bool → List Char → List Char
  | _, [] => []
  | prevCased, c :: rest =>
    if isCasedChar c then
      (if prevCased then pyLowerChar c else pyUpperChar c) :: titleAux true rest
    else c :: titleAux false rest

/-- Python `str.title()`. -/
def pyTitle (s : String) : String := String.mk (titleAux false s.data)

/-- The OTC line's value: the conditional expression
`'Yes (receptfritt)' if info['otc'] == True else
 'No (receptbelagt)' if info['otc'] == False else info['otc']`. -/
def renderOtc : OtcStatus → String
  | .bool true => "Yes (receptfritt)"
  | .bool false => "No (receptbelagt)"
  | .text s => s

/-- The `output` list built by `lookup_medication`, one element per
`output.append` call. -/
def lookup_medication_lines (query : String) : List String :=
  let found := matchQuery query
  let head := ["## Swedish Medication Lookup: " ++ query ++ "\n"]
  let matched :=
    match found with
    | some (med_name, info) =>
      [ "### " ++ pyTitle med_name ++ " (" ++ String.intercalate ", " info.brands ++ ")\n"
      , "**Use:** " ++ info.use
      , "**Dosage:** " ++ info.dose
      , "**OTC:** " ++ renderOtc info.otc
      , "**Warnings:** " ++ info.warnings
      , "" ]
    | none => []
  head ++ matched ++
    [ "### Full Information on FASS"
    , "🔗 " ++ (search_fass_web query).search_url
    , ""
    , "---"
    , "*This is informational only. Always consult healthcare professionals for medical advice.*"
    , "*Sources: FASS.se, Läkemedelsverket*" ]

/-- `lookup_medication(query)`: the joined output text. -/
def lookup_medication (query : String) : String :=
  String.intercalate "\n" (lookup_medication_lines query)

/-- Observable result of running the script: exit status and the lines
printed to standard output. -/
structure MainResult where
  exitCode : Nat
  printed : List String
deriving DecidableEq

/-- The `if __name__ == "__main__"` block: `argv` is the full `sys.argv`
including the program name. With fewer than two elements it prints the
usage lines and exits with status 1; otherwise it joins `sys.argv[1:]`
with single spaces, prints the lookup result and exits with status 0. -/
def mainEntry (argv : List String) : MainResult :=
  if argv.length < 2 then
    { exitCode := 1
    , printed :=
        [ "Usage: fass_lookup.py <medication_name>"
        , "Example: fass_lookup.py paracetamol"
        , "Example: fass_lookup.py alvedon" ] }
  else
    { exitCode := 0
    , printed := [lookup_medication (String.intercalate " " (argv.drop 1))] }

/-! ## Spec-side matcher and helper lemmas -/

/-- The matcher as the specification describes it: the first entry in
insertion order whose canonical name equals the normalized query, or that
has a brand lower-casing to the normalized query, or whose canonical name
contains the normalized query as a substring. Written from the spec's
words, to be compared with `matchQuery` from the source. -/
def specMatch (query : String) : Option (String × MedInfo) :=
  get_common_medications.find? fun p =>
    decide (pyStrip (pyLower query) = p.1) ||
      (p.2.brands.map pyLower).contains (pyStrip (pyLower query)) ||
      pyIn (pyStrip (pyLower query)) p.1

theorem findMed_eq_find? (ql : String) (l : List (String × MedInfo)) :
    findMed ql l = l.find? fun p =>
      decide (ql = p.1) || (p.2.brands.map pyLower).contains ql || pyIn ql p.1 := by
  induction l with
  | nil => rfl
  | cons p rest ih =>
    obtain ⟨name, info⟩ := p
    rw [findMed, List.find?_cons]
    cases h1 : decide (ql = name) <;>
      cases h2 : (info.brands.map pyLower).contains ql <;>
        cases h3 : pyIn ql name <;>
          simp [h1, h2, h3, ih]

theorem findMed_eq_none_of_all_fail (ql : String) (l : List (String × MedInfo))
    (h : ∀ p ∈ l, ql ≠ p.1 ∧
      (p.2.brands.map pyLower).contains ql = false ∧ pyIn ql p.1 = false) :
    findMed ql l = none := by
  rw [findMed_eq_find?, List.find?_eq_none]
  intro p hp
  obtain ⟨h1, h2, h3⟩ := h p hp
  simp [h1, h3]
  simpa using h2

/-- All brand names paired with the directory entry that owns them. -/
def brandPairs : List (String × (String × MedInfo)) :=
  get_common_medications.flatMap fun p => p.2.brands.map fun b => (b, p)

/-! ## Claims about the matcher -/

/-- C1: for every query, the matcher returns the first entry, in the
insertion order of the 8 built-in entries, satisfying exact canonical
name, exact lower-cased brand, or substring-of-canonical-name; absent when
no entry satisfies any rule. -/
theorem matcher_is_first_match (query : String) : matchQuery query = specMatch query :=
  findMed_eq_find? (pyStrip (pyLower query)) get_common_medications

/-- C2: the substring rule never consults brand names: a query whose
normalization is a substring of some brand but is not a substring of any
canonical name, equals no canonical name and equals no lower-cased brand,
yields absent; in particular "aspirin" yields absent. -/
theorem substring_rule_ignores_brands :
    (∀ query : String,
      (∃ p ∈ get_common_medications, ∃ b ∈ p.2.brands,
        pyIn (pyStrip (pyLower query)) (pyLower b) = true) →
      (∀ p ∈ get_common_medications,
        pyStrip (pyLower query) ≠ p.1 ∧
        (p.2.brands.map pyLower).contains (pyStrip (pyLower query)) = false ∧
        pyIn (pyStrip (pyLower query)) p.1 = false) →
      matchQuery query = none) ∧
    matchQuery "aspirin" = none := by
  refine ⟨fun query _ hall => ?_, by decide⟩
  exact findMed_eq_none_of_all_fail _ _ hall

/-- C2 witness: "alvedo" is a substring of the brand "Alvedon" but of no
canonical name, and matches nothing. -/
theorem substring_rule_ignores_brands_witness : matchQuery "alvedo" = none :=
  substring_rule_ignores_brands.1 "alvedo" (by decide) (by decide)

/-- C3: each of the 8 canonical names, queried in any casing and with any
surrounding whitespace, returns exactly its own record. -/
theorem canonical_names_roundtrip (p : String × MedInfo)
    (hp : p ∈ get_common_medications) (query : String)
    (hq : pyStrip (pyLower query) = p.1) :
    matchQuery query = some p := by
  have key : ∀ r ∈ get_common_medications,
      findMed r.1 get_common_medications = some r := by decide
  unfold matchQuery
  rw [hq]
  exact key p hp

/-- C3 witness at "  OMEPRAZOL ". -/
theorem canonical_names_roundtrip_witness :
    matchQuery "  OMEPRAZOL " = some ("omeprazol", omeprazol_info) :=
  canonical_names_roundtrip ("omeprazol", omeprazol_info) (by decide)
    "  OMEPRAZOL " (by decide)

/-- C4: every brand name in the reference data, queried in any casing,
returns the record of the entry owning that brand. -/
theorem brands_return_owner (b : String) (p : String × MedInfo)
    (hb : (b, p) ∈ brandPairs) (query : String)
    (hq : pyLower query = pyLower b) :
    matchQuery query = some p := by
  have key : ∀ bp ∈ brandPairs,
      findMed (pyStrip (pyLower bp.1)) get_common_medications = some bp.2 := by decide
  unfold matchQuery
  rw [hq]
  exact key (b, p) hb

/-- C4 witness at "GLUCOPHAGE". -/
theorem brands_return_owner_witness :
    matchQuery "GLUCOPHAGE" = some ("metformin", metformin_info) :=
  brands_return_owner "Glucophage" ("metformin", metformin_info) (by decide)
    "GLUCOPHAGE" (by decide)

/-- C5: "para" matches paracetamol through the substring rule (it equals
no canonical name and no lower-cased brand), and "panodil" matches
paracetamol through the exact-brand rule. -/
theorem para_panodil_match :
    matchQuery "para" = some ("paracetamol", paracetamol_info) ∧
    pyIn "para" "paracetamol" = true ∧
    ("para" : String) ≠ "paracetamol" ∧
    (paracetamol_info.brands.map pyLower).contains "para" = false ∧
    matchQuery "panodil" = some ("paracetamol", paracetamol_info) ∧
    (paracetamol_info.brands.map pyLower).contains "panodil" = true := by
  decide

/-- C10: a query normalizing to the empty string never yields absent: the
empty string is a substring of every canonical name, so the first entry in
insertion order — the paracetamol record — is returned. -/
theorem empty_query_matches_first (query : String)
    (h : pyStrip (pyLower query) = "") :
    matchQuery query = some ("paracetamol", paracetamol_info) := by
  unfold matchQuery
  rw [h]
  decide

/-- C10 witness at the whitespace-only query "   ". -/
theorem empty_query_matches_first_witness :
    matchQuery "   " = some ("paracetamol", paracetamol_info) :=
  empty_query_matches_first "   " (by decide)

/-! ## Percent-encoding round-trip lemmas -/

theorem char_toNat_lt (c : Char) : c.toNat < 0x110000 := by
  rcases c.valid with h | h
  · have h0 : c.toNat < 0xd800 := h
    omega
  · exact h.2

theorem toNat_ofNat_of_valid (n : Nat) (h : n.isValidChar) :
    (Char.ofNat n).toNat = n := by
  unfold Char.ofNat
  rw [dif_pos h]
  rfl

theorem utf8Bytes_lt (c : Char) : ∀ b ∈ utf8Bytes c, b < 256 := by
  have hlt := char_toNat_lt c
  intro b hb
  unfold utf8Bytes at hb
  split at hb
  · simp at hb; omega
  · split at hb
    · simp at hb
      rcases hb with h | h <;> omega
    · split at hb
      · simp at hb
        rcases hb with h | h | h <;> omega
      · simp at hb
        rcases hb with h | h | h | h <;> omega

theorem utf8Encode_lt (l : List Char) : ∀ b ∈ utf8Encode l, b < 256 := by
  intro b hb
  unfold utf8Encode at hb
  rw [List.mem_flatMap] at hb
  obtain ⟨c, _, hbc⟩ := hb
  exact utf8Bytes_lt c b hbc

theorem hexDigitChar_isHex (d : Nat) (h : d < 16) :
    isHexDigit (hexDigitChar d) = true := by
  interval_cases d <;> decide

theorem hexVal_hexDigitChar (d : Nat) (h : d < 16) :
    hexVal (hexDigitChar d) = d := by
  interval_cases d <;> decide

theorem quoteSafeByte_valid (b : Nat) (h : quoteSafeByte b = true) :
    b.isValidChar := by
  unfold quoteSafeByte at h
  simp only [Bool.or_eq_true, Bool.and_eq_true, decide_eq_true_eq] at h
  left
  omega

theorem unquoteBytes_cons_ne (c : Char) (h : ¬ c = '%') (rest : List Char) :
    unquoteBytes (c :: rest) = c.toNat :: unquoteBytes rest := by
  cases rest with
  | nil => simp [unquoteBytes, h]
  | cons c1 rest1 =>
    cases rest1 with
    | nil => simp [unquoteBytes, h]
    | cons c2 rest2 => simp [unquoteBytes, h]

theorem unquoteBytes_percent (c1 c2 : Char) (cs : List Char)
    (h : (isHexDigit c1 && isHexDigit c2) = true) :
    unquoteBytes ('%' :: c1 :: c2 :: cs) =
      (hexVal c1 * 16 + hexVal c2) :: unquoteBytes cs := by
  simp [unquoteBytes, h]

theorem unquoteBytes_quoteByte (b : Nat) (hb : b < 256) (cs : List Char) :
    unquoteBytes (quoteByte b ++ cs) = b :: unquoteBytes cs := by
  by_cases hs : quoteSafeByte b = true
  · have hv : b.isValidChar := quoteSafeByte_valid b hs
    have hne : Char.ofNat b ≠ '%' := by
      intro hc
      have h37 : b = 37 := by
        have := congrArg Char.toNat hc
        rw [toNat_ofNat_of_valid b hv] at this
        exact this
      rw [h37] at hs
      exact absurd hs (by decide)
    simp only [quoteByte, if_pos hs, List.cons_append, List.nil_append]
    rw [unquoteBytes_cons_ne _ hne, toNat_ofNat_of_valid b hv]
  · simp only [quoteByte, if_neg hs, List.cons_append, List.nil_append]
    have h1 := hexDigitChar_isHex (b / 16) (by omega)
    have h2 := hexDigitChar_isHex (b % 16) (by omega)
    have v1 := hexVal_hexDigitChar (b / 16) (by omega)
    have v2 := hexVal_hexDigitChar (b % 16) (by omega)
    rw [unquoteBytes_percent _ _ _ (by rw [h1, h2]; rfl), v1, v2]
    congr 1
    omega

theorem unquoteBytes_quote_list (bs : List Nat) (h : ∀ b ∈ bs, b < 256) :
    unquoteBytes (bs.flatMap quoteByte) = bs := by
  induction bs with
  | nil => rfl
  | cons b rest ih =>
    rw [List.flatMap_cons, unquoteBytes_quoteByte b (h b (by simp)) _,
      ih (fun x hx => h x (by simp [hx]))]

theorem decAux_none_cons (b : Nat) (bs : List Nat) :
    utf8DecodeAux none (b :: bs) =
      if b < 0x80 then (utf8DecodeAux none bs).map (fun ps => b :: ps)
      else if b < 0xC0 then none
      else if b < 0xE0 then utf8DecodeAux (some (1, b - 0xC0)) bs
      else if b < 0xF0 then utf8DecodeAux (some (2, b - 0xE0)) bs
      else if b < 0xF8 then utf8DecodeAux (some (3, b - 0xF0)) bs
      else none := rfl

theorem decAux_some_cons (k acc b : Nat) (bs : List Nat) :
    utf8DecodeAux (some (k, acc)) (b :: bs) =
      if 0x80 ≤ b ∧ b < 0xC0 then
        if k = 1 then
          (utf8DecodeAux none bs).map (fun ps => (acc * 64 + (b - 0x80)) :: ps)
        else utf8DecodeAux (some (k - 1, acc * 64 + (b - 0x80))) bs
      else none := rfl

theorem utf8DecodeAux_encodeChar (c : Char) (bs : List Nat) :
    utf8DecodeAux none (utf8Bytes c ++ bs) =
      (utf8DecodeAux none bs).map (fun ps => c.toNat :: ps) := by
  have hlt : c.toNat < 0x110000 := char_toNat_lt c
  unfold utf8Bytes
  by_cases h1 : c.toNat < 0x80
  · rw [if_pos h1]
    simp only [List.cons_append, List.nil_append]
    rw [decAux_none_cons, if_pos h1]
  · rw [if_neg h1]
    by_cases h2 : c.toNat < 0x800
    · rw [if_pos h2]
      simp only [List.cons_append, List.nil_append]
      rw [decAux_none_cons,
        if_neg (show ¬(0xC0 + c.toNat / 64 < 0x80) by omega),
        if_neg (show ¬(0xC0 + c.toNat / 64 < 0xC0) by omega),
        if_pos (show 0xC0 + c.toNat / 64 < 0xE0 by omega),
        decAux_some_cons,
        if_pos (show 0x80 ≤ 0x80 + c.toNat % 64 ∧ 0x80 + c.toNat % 64 < 0xC0 by omega),
        if_pos rfl,
        show (0xC0 + c.toNat / 64 - 0xC0) * 64 + (0x80 + c.toNat % 64 - 0x80) = c.toNat
          by omega]
    · rw [if_neg h2]
      by_cases h3 : c.toNat < 0x10000
      · rw [if_pos h3]
        simp only [List.cons_append, List.nil_append]
        rw [decAux_none_cons,
          if_neg (show ¬(0xE0 + c.toNat / 4096 < 0x80) by omega),
          if_neg (show ¬(0xE0 + c.toNat / 4096 < 0xC0) by omega),
          if_neg (show ¬(0xE0 + c.toNat / 4096 < 0xE0) by omega),
          if_pos (show 0xE0 + c.toNat / 4096 < 0xF0 by omega),
          decAux_some_cons,
          if_pos (show 0x80 ≤ 0x80 + c.toNat / 64 % 64 ∧ 0x80 + c.toNat / 64 % 64 < 0xC0
            by omega),
          if_neg (show ¬(2 = 1) by omega),
          decAux_some_cons,
          if_pos (show 0x80 ≤ 0x80 + c.toNat % 64 ∧ 0x80 + c.toNat % 64 < 0xC0 by omega),
          if_pos rfl,
          show ((0xE0 + c.toNat / 4096 - 0xE0) * 64 + (0x80 + c.toNat / 64 % 64 - 0x80)) * 64
              + (0x80 + c.toNat % 64 - 0x80) = c.toNat by omega]
      · rw [if_neg h3]
        simp only [List.cons_append, List.nil_append]
        rw [decAux_none_cons,
          if_neg (show ¬(0xF0 + c.toNat / 0x40000 < 0x80) by omega),
          if_neg (show ¬(0xF0 + c.toNat / 0x40000 < 0xC0) by omega),
          if_neg (show ¬(0xF0 + c.toNat / 0x40000 < 0xE0) by omega),
          if_neg (show ¬(0xF0 + c.toNat / 0x40000 < 0xF0) by omega),
          if_pos (show 0xF0 + c.toNat / 0x40000 < 0xF8 by omega),
          decAux_some_cons,
          if_pos (show 0x80 ≤ 0x80 + c.toNat / 4096 % 64 ∧ 0x80 + c.toNat / 4096 % 64 < 0xC0
            by omega),
          if_neg (show ¬(3 = 1) by omega),
          decAux_some_cons,
          if_pos (show 0x80 ≤ 0x80 + c.toNat / 64 % 64 ∧ 0x80 + c.toNat / 64 % 64 < 0xC0
            by omega),
          if_neg (show ¬(3 - 1 = 1) by omega),
          decAux_some_cons,
          if_pos (show 0x80 ≤ 0x80 + c.toNat % 64 ∧ 0x80 + c.toNat % 64 < 0xC0 by omega),
          if_pos rfl,
          show (((0xF0 + c.toNat / 0x40000 - 0xF0) * 64 + (0x80 + c.toNat / 4096 % 64 - 0x80))
              * 64 + (0x80 + c.toNat / 64 % 64 - 0x80)) * 64 + (0x80 + c.toNat % 64 - 0x80)
              = c.toNat by omega]

theorem utf8Decode_encode (l : List Char) :
    utf8DecodePoints (utf8Encode l) = some (l.map Char.toNat) := by
  induction l with
  | nil => rfl
  | cons c rest ih =>
    unfold utf8Encode utf8DecodePoints at *
    rw [List.flatMap_cons, utf8DecodeAux_encodeChar, ih]
    rfl

theorem charOfPoint_toNat (c : Char) : charOfPoint c.toNat = some c := by
  have hv : c.toNat.isValidChar := c.valid
  unfold charOfPoint
  rw [dif_pos hv]
  exact congrArg some (Char.ext (UInt32.ext rfl))

theorem charsOfPoints_map_toNat (l : List Char) :
    charsOfPoints (l.map Char.toNat) = some l := by
  induction l with
  | nil => rfl
  | cons c rest ih =>
    simp [charsOfPoints, charOfPoint_toNat, ih]

/-- Percent-decoding a quoted string recovers it exactly. -/
theorem pyUnquote_pyQuote (s : String) : pyUnquote (pyQuote s) = some s := by
  unfold pyUnquote pyQuote
  have hq : unquoteBytes (String.mk ((utf8Encode s.data).flatMap quoteByte)).data =
      utf8Encode s.data :=
    unquoteBytes_quote_list (utf8Encode s.data) (utf8Encode_lt s.data)
  rw [hq, utf8Decode_encode]
  simp [charsOfPoints_map_toNat]

/-! ## Claims about the reference-URL builder -/

/-- C6: the URL builder percent-encodes the raw query into the fixed
fass.se template, and percent-decoding the query-parameter value recovers
exactly the original query; in particular for "alvedon 500mg". -/
theorem reference_url_roundtrip :
    (∀ query : String,
      (search_fass_web query).search_url = "https://fass.se/search?query=" ++ pyQuote query ∧
      pyUnquote (pyQuote query) = some query) ∧
    (search_fass_web "alvedon 500mg").search_url =
      "https://fass.se/search?query=alvedon%20500mg" ∧
    pyUnquote "alvedon%20500mg" = some "alvedon 500mg" := by
  refine ⟨fun query => ⟨rfl, pyUnquote_pyQuote query⟩, by decide, by decide⟩

/-! ## Claims about the entry point and the formatter -/

/-- C7: with zero query arguments the program prints the usage message and
exits with status 1; with one or more it exits with status 0 and looks up
the space-joined arguments after the program name. -/
theorem cli_usage_and_exit (argv : List String) :
    (argv.drop 1 = [] →
      (mainEntry argv).exitCode = 1 ∧
      (mainEntry argv).printed =
        [ "Usage: fass_lookup.py <medication_name>"
        , "Example: fass_lookup.py paracetamol"
        , "Example: fass_lookup.py alvedon" ]) ∧
    (argv.drop 1 ≠ [] →
      (mainEntry argv).exitCode = 0 ∧
      (mainEntry argv).printed =
        [lookup_medication (String.intercalate " " (argv.drop 1))]) := by
  constructor
  · intro h
    have hlen : argv.length < 2 := by
      have := List.drop_eq_nil_iff.mp h
      omega
    rw [mainEntry, if_pos hlen]
    exact ⟨rfl, rfl⟩
  · intro h
    have hlen : ¬ argv.length < 2 := by
      intro hc
      exact h (List.drop_eq_nil_iff.mpr (by omega))
    rw [mainEntry, if_neg hlen]
    exact ⟨rfl, rfl⟩

/-- C7 witness: no arguments, then two arguments joined with a space. -/
theorem cli_usage_and_exit_witness :
    ((mainEntry ["fass_lookup.py"]).exitCode = 1 ∧
      (mainEntry ["fass_lookup.py"]).printed =
        [ "Usage: fass_lookup.py <medication_name>"
        , "Example: fass_lookup.py paracetamol"
        , "Example: fass_lookup.py alvedon" ]) ∧
    ((mainEntry ["fass_lookup.py", "alvedon", "500mg"]).exitCode = 0 ∧
      (mainEntry ["fass_lookup.py", "alvedon", "500mg"]).printed =
        [lookup_medication (String.intercalate " "
          (["fass_lookup.py", "alvedon", "500mg"].drop 1))]) :=
  ⟨(cli_usage_and_exit ["fass_lookup.py"]).1 rfl,
   (cli_usage_and_exit ["fass_lookup.py", "alvedon", "500mg"]).2 (by decide)⟩

/-- C8: for every query, matched or not, the output contains the "Full
Information" subheader, the reference-URL line, the disclaimer and the
sources line. -/
theorem output_always_has_reference (query : String) :
    "### Full Information on FASS" ∈ lookup_medication_lines query ∧
    ("🔗 " ++ (search_fass_web query).search_url) ∈ lookup_medication_lines query ∧
    "*This is informational only. Always consult healthcare professionals for medical advice.*"
      ∈ lookup_medication_lines query ∧
    "*Sources: FASS.se, Läkemedelsverket*" ∈ lookup_medication_lines query := by
  unfold lookup_medication_lines
  refine ⟨?_, ?_, ?_, ?_⟩ <;> simp

/-- C9: the OTC status renders as "Yes (receptfritt)" for boolean true,
"No (receptbelagt)" for boolean false, and the literal string otherwise;
omeprazol's lookup output carries its literal qualifier string. -/
theorem otc_rendering :
    renderOtc (.bool true) = "Yes (receptfritt)" ∧
    renderOtc (.bool false) = "No (receptbelagt)" ∧
    (∀ s : String, renderOtc (.text s) = s) ∧
    ("**OTC:** " ++ renderOtc omeprazol_info.otc) =
      "**OTC:** Low dose OTC, higher doses Rx" ∧
    "**OTC:** Low dose OTC, higher doses Rx" ∈ lookup_medication_lines "omeprazol" ∧
    "**OTC:** Yes (receptfritt)" ∈ lookup_medication_lines "paracetamol" ∧
    "**OTC:** No (receptbelagt)" ∈ lookup_medication_lines "sertralin" := by
  exact ⟨rfl, rfl, fun s => rfl, rfl, by decide, by decide, by decide⟩
